import Mathlib

/-!
# Verification of the `cascadestore` tiered session store

A shallow embedding of `store.go` from the `appengine-sessions` repository.
The cascade engine persists a session redundantly across up to three backend
tiers — Request (ephemeral, per-request `gorilla/context` map), Memcache
(volatile, native TTL) and Datastore (durable, explicit expiry field) — chosen
by a bitmask fixed at construction.

Modelling decisions, all taken from the Go source:

* Backend state (the three tiers) is explicit: a `World` structure carrying
  association lists for each tier, the current time, and per-backend fault
  injectors (`Option GoError`) that make a backend call fail, so that the
  abort-on-first-failure behaviour of the cascades is observable.
* Go's panic/recover control flow is modelled by early returns.  Crucially,
  each deferred recover block in the source reads `err := r.(error)` — a *new*
  local variable that shadows the named return value `err` — so a recovered
  panic returns whatever the named `err` held at panic time (usually `nil`).
  The model reproduces this faithfully by threading the named error variable.
* `gorilla/context` stores `interface{}` values.  `save` stores a
  `*requestItem` (pointer) while `load` runs the value-type assertion
  `itemRaw.(requestItem)`; on a pointer this assertion panics.  The model's
  `gcVal` type distinguishes the pointer shape (`ptrItem`) from the value
  shape (`valItem`) so that the assertion's behaviour is representable.
* Machine integers: lengths are `Nat`, times and ages are `Int` (no overflow
  is relevant at these magnitudes in the source).
-/

/-- `RequestBackend` bit of the backend-type bitmask (Go: `1 << iota`). -/
def RequestBackend : Nat := 1

/-- `MemcacheBackend` bit of the backend-type bitmask. -/
def MemcacheBackend : Nat := 2

/-- `DatastoreBackend` bit of the backend-type bitmask. -/
def DatastoreBackend : Nat := 4

/-- Go: `DistributedBackends = MemcacheBackend | DatastoreBackend`. -/
def DistributedBackends : Nat := MemcacheBackend ||| DatastoreBackend

/-- Go: `AllBackends = RequestBackend | MemcacheBackend | DatastoreBackend`. -/
def AllBackends : Nat := RequestBackend ||| MemcacheBackend ||| DatastoreBackend

/-- Go: `DefaultExpireSeconds = 86400 * 30`. -/
def DefaultExpireSeconds : Int := 86400 * 30

/-- Go: `MaxValueLength = 4096`. -/
def MaxValueLength : Nat := 4096

/-- Go: `DefaultMaxAgeSeconds = 60 * 20`. -/
def DefaultMaxAgeSeconds : Int := 60 * 20

/-- Go: `DefaultKeyPrefix = "session."`. -/
def DefaultKeyPrefix : String := "session."

/-- Errors that can travel through the cascades.  `valueTooBig` is the
exported `ValueTooBigError`; `cacheMiss` is `memcache.ErrCacheMiss`;
`noSuchEntity` is `datastore.ErrNoSuchEntity`; `backend n` stands for any
other backend error value. -/
inductive GoError where
  | valueTooBig
  | cacheMiss
  | noSuchEntity
  | backend (n : Nat)
deriving DecidableEq, Repr

/-- `sessions.Options` (gorilla/sessions), the cookie-options record carried
by a session and by the store's default configuration. -/
structure SessionOptions where
  path : String
  domain : String
  maxAge : Int
  secure : Bool
  httpOnly : Bool
deriving DecidableEq, Repr

/-- A `sessions.Session`: identifier, value mapping (the payload, modelled as
a list of naturals), options, and the transient is-new flag. -/
structure Session where
  id : String
  values : List Nat
  options : SessionOptions
  isNew : Bool
deriving DecidableEq, Repr

/-- Modelled from the spec: the Serializer capability
(`serialize(session) -> bytes`, `deserialize(bytes, session) -> error`) —
the default Gob-based implementation is not under `src/`; the spec requires
only that it "must round-trip the full value mapping" and produce an opaque
byte sequence.  The payload is a list of naturals and the encoding is a
length-prefixed copy, which round-trips and has a genuine byte length. -/
def GobSerializer.Serialize (values : List Nat) : List Nat :=
  values.length :: values

/-- Modelled from the spec: inverse of `GobSerializer.Serialize`; fails
(`none`) on bytes that are not a valid encoding. -/
def GobSerializer.Deserialize (b : List Nat) : Option (List Nat) :=
  match b with
  | [] => none
  | n :: rest => if rest.length = n then some rest else none

/-- Association-list lookup (first binding wins), modelling keyed access to a
backend's store. -/
def assocGet {α : Type} (l : List (String × α)) (k : String) : Option α :=
  match l with
  | [] => none
  | (k', v) :: rest => if k' = k then some v else assocGet rest k

/-- Association-list overwrite-or-append, modelling a keyed write. -/
def assocSet {α : Type} (l : List (String × α)) (k : String) (v : α) :
    List (String × α) :=
  match l with
  | [] => [(k, v)]
  | (k', v') :: rest =>
      if k' = k then (k, v) :: rest else (k', v') :: assocSet rest k v

/-- Association-list removal of every binding of a key, modelling a keyed
delete. -/
def assocDelete {α : Type} (l : List (String × α)) (k : String) :
    List (String × α) :=
  match l with
  | [] => []
  | (k', v') :: rest =>
      if k' = k then assocDelete rest k else (k', v') :: assocDelete rest k

/-- The Go struct `requestItem` stored in the request tier:
`{Value []byte, ExpiresAt time.Time}`. -/
structure requestItem where
  Value : List Nat
  ExpiresAt : Int
deriving DecidableEq, Repr

/-- The Go struct `sessionKind` stored in the datastore tier:
`{Value []byte, ExpiresAt time.Time}`. -/
structure sessionKind where
  Value : List Nat
  ExpiresAt : Int
deriving DecidableEq, Repr

/-- A memcache item as the backend keeps it: the value bytes together with
the absolute expiry the native TTL mechanism computed at `Set` time
(`none` when the TTL passed was zero, meaning no expiration). -/
structure memItem where
  value : List Nat
  expireAt : Option Int
deriving DecidableEq, Repr

/-- A dynamically-typed value in the `gorilla/context` request map.  Go's
`gcontext.Set(r, key, item)` in `save` stores a `*requestItem` (`ptrItem`);
a non-pointer `requestItem` value would be `valItem`.  The value-type
assertion `itemRaw.(requestItem)` in `load` succeeds only on `valItem` and
panics on `ptrItem`. -/
inductive gcVal where
  | ptrItem (item : requestItem)
  | valItem (item : requestItem)
deriving DecidableEq, Repr

/-- The state of the three backends plus the clock and per-call fault
injectors.  A fault of `some e` makes the corresponding backend call return
error `e` instead of acting. -/
structure World where
  request : List (String × gcVal)
  memcache : List (String × memItem)
  datastore : List (String × sessionKind)
  now : Int
  memSetFault : Option GoError
  memGetFault : Option GoError
  memDeleteFault : Option GoError
  dsPutFault : Option GoError
  dsGetFault : Option GoError
  dsDeleteFault : Option GoError
deriving DecidableEq, Repr

/-- Result of `save` or `delete`: the updated backend state and the Go
function's returned error. -/
structure OpResult where
  world : World
  err : Option GoError
deriving DecidableEq, Repr

/-- Result of `load`: updated backend state, the (possibly repopulated)
session, the `success` flag and the returned error. -/
structure LoadResult where
  world : World
  session : Session
  success : Bool
  err : Option GoError
deriving DecidableEq, Repr

/-- The `CascadeStore` configuration: backend bitmask, max serialized length,
key prefix, default cookie options and default TTL (`DefaultMaxAge`). -/
structure CascadeStore where
  backendTypes : Nat
  maxLength : Nat
  keyPfx : String
  Options : SessionOptions
  DefaultMaxAge : Int
deriving DecidableEq, Repr

/-- Go `NewCascadeStore`: defaults `maxLength = MaxValueLength`,
`keyPrefix = DefaultKeyPrefix`, options `{Path: "/", MaxAge:
DefaultExpireSeconds}`, `DefaultMaxAge = DefaultMaxAgeSeconds`. -/
def NewCascadeStore (backendTypes : Nat) : CascadeStore :=
  { backendTypes := backendTypes
    maxLength := MaxValueLength
    keyPfx := DefaultKeyPrefix
    Options :=
      { path := "/", domain := "", maxAge := DefaultExpireSeconds,
        secure := false, httpOnly := false }
    DefaultMaxAge := DefaultMaxAgeSeconds }

/-- The derived storage key: `cs.keyPrefix + session.ID`. -/
def CascadeStore.sessionKey (cs : CascadeStore) (session : Session) : String :=
  cs.keyPfx ++ session.id

/-- The effective TTL computed in `save`: `age := session.Options.MaxAge;
if age == 0 { age = cs.DefaultMaxAge }`. -/
def CascadeStore.effectiveAge (cs : CascadeStore) (session : Session) : Int :=
  if session.options.maxAge = 0 then cs.DefaultMaxAge else session.options.maxAge

/-- Datastore leg of the save cascade (`datastore.Put`).  A put fault panics;
the recover block's `err := r.(error)` shadows the named return, so the
function returns with `err` still `nil`. -/
def CascadeStore.saveDatastore (cs : CascadeStore) (w : World) (key : String)
    (serialized : List Nat) (expiresAt : Int) : OpResult :=
  if cs.backendTypes &&& DatastoreBackend > 0 then
    match w.dsPutFault with
    | some _ => ⟨w, none⟩
    | none =>
        ⟨{ w with datastore := assocSet w.datastore key ⟨serialized, expiresAt⟩ },
         none⟩
  else ⟨w, none⟩

/-- Go `CascadeStore.save`: serialize, enforce `maxLength` (panicking with
`ValueTooBigError`, which the shadowed recover turns into a `nil` return with
no tier written), compute the effective TTL and absolute expiry, then write
each enabled tier in order Request → Memcache → Datastore, panicking (hence
aborting the rest, again returning `nil`) on the first backend failure. -/
def CascadeStore.save (cs : CascadeStore) (w : World) (session : Session) :
    OpResult :=
  let key := cs.sessionKey session
  let serialized := GobSerializer.Serialize session.values
  if cs.maxLength ≠ 0 ∧ serialized.length > cs.maxLength then
    ⟨w, none⟩
  else
    let age := cs.effectiveAge session
    let expiresAt := w.now + age
    let w1 :=
      if cs.backendTypes &&& RequestBackend > 0 then
        { w with request := assocSet w.request key (gcVal.ptrItem ⟨serialized, expiresAt⟩) }
      else w
    if cs.backendTypes &&& MemcacheBackend > 0 then
      match w1.memSetFault with
      | some _ => ⟨w1, none⟩
      | none =>
          let item : memItem :=
            ⟨serialized, if age = 0 then none else some expiresAt⟩
          let w2 := { w1 with memcache := assocSet w1.memcache key item }
          cs.saveDatastore w2 key serialized expiresAt
    else cs.saveDatastore w1 key serialized expiresAt

/-- Datastore leg of the delete cascade (`datastore.Delete`).  An error here
is only logged (`log.Warningf`), never panicked: the cascade continues and
the key is left in place. -/
def CascadeStore.deleteDatastore (cs : CascadeStore) (w : World) (key : String) :
    OpResult :=
  if cs.backendTypes &&& DatastoreBackend > 0 then
    match w.dsDeleteFault with
    | some _ => ⟨w, none⟩
    | none => ⟨{ w with datastore := assocDelete w.datastore key }, none⟩
  else ⟨w, none⟩

/-- Go `CascadeStore.delete`: remove the key from each enabled tier in order.
`memcache.Delete` returns `ErrCacheMiss` when the key is absent (logged,
cascade continues); any other memcache error panics, the shadowed recover
returns `nil`, and the datastore leg is skipped.  A datastore delete error is
logged and the cascade continues.  The function returns `nil` on every path. -/
def CascadeStore.delete (cs : CascadeStore) (w : World) (session : Session) :
    OpResult :=
  let key := cs.sessionKey session
  let w1 :=
    if cs.backendTypes &&& RequestBackend > 0 then
      { w with request := assocDelete w.request key }
    else w
  if cs.backendTypes &&& MemcacheBackend > 0 then
    let dres : Option GoError :=
      match w1.memDeleteFault with
      | some e => some e
      | none =>
          if (assocGet w1.memcache key).isSome then none
          else some GoError.cacheMiss
    match dres with
    | none =>
        cs.deleteDatastore
          { w1 with memcache := assocDelete w1.memcache key } key
    | some GoError.cacheMiss => cs.deleteDatastore w1 key
    | some _ => ⟨w1, none⟩
  else cs.deleteDatastore w1 key

/-- Native-TTL read of the memcache backend: the stored item if present and
not yet expired, otherwise a cache miss (`none`). -/
def memGet (w : World) (key : String) : Option memItem :=
  match assocGet w.memcache key with
  | none => none
  | some item =>
      match item.expireAt with
      | none => some item
      | some e => if w.now < e then some item else none

/-- Final phase of `load`: deserialize the found bytes into the session.  A
deserialization failure panics with a *local* error, so the recovered
function returns `success = false` and whatever the named `err` held
(`errVar`).  With no bytes found, the code reaches `return success, nil`. -/
def CascadeStore.loadFinish (cs : CascadeStore) (w : World) (session : Session)
    (value : Option (List Nat)) (errVar : Option GoError) : LoadResult :=
  match value with
  | none => ⟨w, session, false, none⟩
  | some v =>
      match GobSerializer.Deserialize v with
      | none => ⟨w, session, false, errVar⟩
      | some vals => ⟨w, { session with values := vals }, true, none⟩

/-- Datastore leg of `load` (`datastore.Get` into a *local* `err`):
`ErrNoSuchEntity` is non-fatal; any other get error panics, returning
`success = false` and the unchanged named `err` (`errVar`).  A present record
is a hit only when `now < ExpiresAt`; an expired record triggers the full
delete cascade (whose returned error, always `nil`, is checked with a local
variable) and the load continues empty-handed. -/
def CascadeStore.loadDatastore (cs : CascadeStore) (w : World)
    (session : Session) (key : String) (value : Option (List Nat))
    (errVar : Option GoError) : LoadResult :=
  if value = none ∧ cs.backendTypes &&& DatastoreBackend > 0 then
    match w.dsGetFault with
    | some e =>
        if e = GoError.noSuchEntity then cs.loadFinish w session none errVar
        else ⟨w, session, false, errVar⟩
    | none =>
        match assocGet w.datastore key with
        | none => cs.loadFinish w session none errVar
        | some s =>
            if w.now < s.ExpiresAt then
              cs.loadFinish w session (some s.Value) errVar
            else
              match cs.delete w session with
              | ⟨w', some _⟩ => ⟨w', session, false, errVar⟩
              | ⟨w', none⟩ => cs.loadFinish w' session none errVar
  else cs.loadFinish w session value errVar

/-- Memcache leg of `load`.  `item, err = memcache.Get(ctx, key)` assigns the
*named* return `err`: `nil` on a hit, `ErrCacheMiss` on a miss (non-fatal),
and any other error panics after having been assigned, so the recovered
function returns `success = false` with that very error. -/
def CascadeStore.loadMemcache (cs : CascadeStore) (w : World)
    (session : Session) (key : String) (value : Option (List Nat))
    (errVar : Option GoError) : LoadResult :=
  if value = none ∧ cs.backendTypes &&& MemcacheBackend > 0 then
    match w.memGetFault with
    | some e =>
        if e = GoError.cacheMiss then
          cs.loadDatastore w session key none (some GoError.cacheMiss)
        else ⟨w, session, false, some e⟩
    | none =>
        match memGet w key with
        | none => cs.loadDatastore w session key none (some GoError.cacheMiss)
        | some item => cs.loadDatastore w session key (some item.value) none
  else cs.loadDatastore w session key value errVar

/-- Go `CascadeStore.load`: try Request, Memcache, Datastore in order until
bytes are found, then deserialize.  In the request tier, a stored item is a
`*requestItem`, so the value-type assertion `itemRaw.(requestItem)` panics;
the recover block returns `success = false`, `err = nil` (named `err` still
`nil` at that point).  A `valItem` would follow the intended branch: hit when
`now < ExpiresAt`, otherwise delete from this tier only and continue. -/
def CascadeStore.load (cs : CascadeStore) (w : World) (session : Session) :
    LoadResult :=
  let key := cs.sessionKey session
  if cs.backendTypes &&& RequestBackend > 0 then
    match assocGet w.request key with
    | some (gcVal.ptrItem _) => ⟨w, session, false, none⟩
    | some (gcVal.valItem item) =>
        if w.now < item.ExpiresAt then
          cs.loadMemcache w session key (some item.Value) none
        else
          cs.loadMemcache { w with request := assocDelete w.request key }
            session key none none
    | none => cs.loadMemcache w session key none none
  else cs.loadMemcache w session key none none

/-- The identity-cookie state of an incoming request, at the decode boundary:
no cookie for the session name; a cookie whose authenticated decode fails
with error `e`; or a cookie that decodes to session ID `id`.  The codec
itself is an external collaborator (`securecookie`). -/
inductive CookieState where
  | absent
  | invalid (e : GoError)
  | valid (id : String)
deriving DecidableEq, Repr

/-- Result of the facade `New`: backend state, the constructed session and
the returned error. -/
structure NewResult where
  world : World
  session : Session
  err : Option GoError
deriving DecidableEq, Repr

/-- Go `CascadeStore.New`: build a fresh session with a copy of the store's
default options and `IsNew = true`.  With no cookie, return it with a `nil`
error.  A failed decode returns the fresh session *together with the decode
error* (the outer `err`).  On a successful decode, `ok, err := cs.load(...)`
declares a *new* `err` that shadows the outer one, so a load error is never
returned; `IsNew` becomes `!(err == nil && ok)` for the inner values. -/
def CascadeStore.New (cs : CascadeStore) (w : World) (cookie : CookieState)
    (name : String) : NewResult :=
  let session : Session :=
    { id := "", values := [], options := cs.Options, isNew := true }
  match cookie with
  | CookieState.absent => ⟨w, session, none⟩
  | CookieState.invalid e => ⟨w, session, some e⟩
  | CookieState.valid id =>
      let r := cs.load w { session with id := id }
      ⟨r.world,
       { r.session with
           isNew := if r.err = none ∧ r.success = true then false else true },
       none⟩

/-- The observable cookie side effect of the facade `Save`: no cookie set, an
immediate-expiry cookie (`NewCookie(name, "", options)` with negative
max-age), or a session cookie carrying the encoded ID. -/
inductive CookieAction where
  | noCookie
  | expireCookie
  | sessionCookie (id : String)
deriving DecidableEq, Repr

/-- Result of the facade `Save`: backend state, cookie side effect, returned
error. -/
structure FacadeSaveResult where
  world : World
  cookie : CookieAction
  err : Option GoError
deriving DecidableEq, Repr

/-- Go `CascadeStore.Save` (the facade): with a negative max-age, run the
delete cascade (propagating its error, if any) and set an immediate-expiry
cookie; otherwise assign a fresh ID if the session has none (`freshId`
stands for the random base32 ID), run the save cascade (propagating its
error), then encode and set the session cookie.  The codec's encode step is
modelled as always succeeding (it is an external collaborator). -/
def CascadeStore.Save (cs : CascadeStore) (w : World) (session : Session)
    (freshId : String) : FacadeSaveResult :=
  if session.options.maxAge < 0 then
    match cs.delete w session with
    | ⟨w', some e⟩ => ⟨w', CookieAction.noCookie, some e⟩
    | ⟨w', none⟩ => ⟨w', CookieAction.expireCookie, none⟩
  else
    let sid := if session.id = "" then freshId else session.id
    match cs.save w { session with id := sid } with
    | ⟨w', some e⟩ => ⟨w', CookieAction.noCookie, some e⟩
    | ⟨w', none⟩ => ⟨w', CookieAction.sessionCookie sid, none⟩

/-- Default cookie options used in the concrete examples below. -/
def exOptions : SessionOptions := ⟨"/", "", 0, false, false⟩

/-- A fault-free empty backend state at time `0`. -/
def exWorld : World := ⟨[], [], [], 0, none, none, none, none, none, none⟩

/-- A concrete session with ID `"abc"` and payload `[1, 2]`. -/
def exSession : Session := ⟨"abc", [1, 2], exOptions, false⟩

/-- A concrete store over backend bitmask `bt` with the default limits. -/
def exStore (bt : Nat) : CascadeStore := ⟨bt, 4096, "session.", exOptions, 1200⟩

/-- An empty backend state whose memcache `Set` calls fail. -/
def exSetFaultWorld : World :=
  ⟨[], [], [], 0, some (GoError.backend 7), none, none, none, none, none⟩

/-- An empty backend state whose memcache `Get` calls fail (not a miss). -/
def exGetFaultWorld : World :=
  ⟨[], [], [], 0, none, some (GoError.backend 9), none, none, none, none⟩

/-- A backend state holding a datastore record, whose memcache `Delete` calls
fail (not a miss). -/
def exDelFaultWorld : World :=
  ⟨[], [], [("session.abc", ⟨[9], 50⟩)], 0, none, none, some (GoError.backend 11),
   none, none, none⟩

/-- A backend state whose datastore holds a record for `"session.abc"` that
expired before the current time `0`. -/
def exExpiredWorld : World :=
  ⟨[], [], [("session.abc", ⟨[2, 1, 2], -1⟩)], 0, none, none, none, none, none, none⟩

/-- A concrete session marked for deletion (negative max-age). -/
def exLogoutSession : Session := ⟨"abc", [1, 2], ⟨"/", "", -1, false, false⟩, false⟩

/-- An empty backend state whose datastore `Put` calls fail. -/
def exDsPutFaultWorld : World :=
  ⟨[], [], [], 0, none, none, none, some (GoError.backend 13), none, none⟩

/-- An empty backend state whose datastore `Get` calls fail (not a
no-such-entity result). -/
def exDsGetFaultWorld : World :=
  ⟨[], [], [], 0, none, none, none, none, some (GoError.backend 15), none⟩

/-- A backend state holding a datastore record, whose datastore `Delete`
calls fail. -/
def exDsDelFaultWorld : World :=
  ⟨[], [], [("session.abc", ⟨[9], 50⟩)], 0, none, none, none, none, none,
   some (GoError.backend 17)⟩

-- Generic facts about the association-list maps, the serializer and the
-- delete cascade, shared by the claim theorems below.

theorem assocGet_assocSet_self {α : Type} (l : List (String × α)) (k : String) (v : α) :
    assocGet (assocSet l k v) k = some v := by
  induction l with
  | nil => simp [assocGet, assocSet]
  | cons hd tl ih =>
      obtain ⟨k', v'⟩ := hd
      by_cases h : k' = k
      · simp [assocGet, assocSet, h]
      · simp [assocGet, assocSet, h, ih]

theorem assocGet_assocDelete_self {α : Type} (l : List (String × α)) (k : String) :
    assocGet (assocDelete l k) k = none := by
  induction l with
  | nil => simp [assocGet, assocDelete]
  | cons hd tl ih =>
      obtain ⟨k', v'⟩ := hd
      by_cases h : k' = k
      · simp [assocDelete, h, ih]
      · simp [assocGet, assocDelete, h, ih]

theorem deserialize_serialize (v : List Nat) :
    GobSerializer.Deserialize (GobSerializer.Serialize v) = some v := by
  simp [GobSerializer.Serialize, GobSerializer.Deserialize]

theorem deleteDatastore_err (cs : CascadeStore) (w : World) (key : String) :
    (cs.deleteDatastore w key).err = none := by
  unfold CascadeStore.deleteDatastore
  split
  · split <;> rfl
  · rfl

-- The delete cascade returns nil on every path: a memcache miss and a
-- datastore failure are only logged, and a memcache failure panics into the
-- recover block whose local `err` shadows the named return.
theorem delete_err (cs : CascadeStore) (w : World) (s : Session) :
    (cs.delete w s).err = none := by
  simp only [CascadeStore.delete]
  repeat' split
  all_goals simp [deleteDatastore_err]

-- Normal form of a fault-free, size-respecting save: each enabled tier gets
-- the serialized record under the derived key with expiry `now + age`.
theorem save_ok (cs : CascadeStore) (w : World) (s : Session)
    (hsize : ¬(cs.maxLength ≠ 0 ∧ (GobSerializer.Serialize s.values).length > cs.maxLength))
    (hm : w.memSetFault = none) (hd : w.dsPutFault = none) :
    cs.save w s =
      ⟨{ w with
           request :=
             if cs.backendTypes &&& RequestBackend > 0 then
               assocSet w.request (cs.sessionKey s)
                 (gcVal.ptrItem ⟨GobSerializer.Serialize s.values, w.now + cs.effectiveAge s⟩)
             else w.request,
           memcache :=
             if cs.backendTypes &&& MemcacheBackend > 0 then
               assocSet w.memcache (cs.sessionKey s)
                 ⟨GobSerializer.Serialize s.values,
                  if cs.effectiveAge s = 0 then none else some (w.now + cs.effectiveAge s)⟩
             else w.memcache,
           datastore :=
             if cs.backendTypes &&& DatastoreBackend > 0 then
               assocSet w.datastore (cs.sessionKey s)
                 ⟨GobSerializer.Serialize s.values, w.now + cs.effectiveAge s⟩
             else w.datastore },
       none⟩ := by
  by_cases hr : cs.backendTypes &&& RequestBackend > 0 <;>
  by_cases hmc : cs.backendTypes &&& MemcacheBackend > 0 <;>
  by_cases hds : cs.backendTypes &&& DatastoreBackend > 0 <;>
  simp [CascadeStore.save, CascadeStore.saveDatastore, hsize, hm, hd, hr, hmc, hds] <;>
  (cases w ; simp_all)

-- A fault-free delete leaves no binding of the key in any enabled tier.
theorem delete_world (cs : CascadeStore) (w : World) (s : Session)
    (hm : w.memDeleteFault = none) (hd : w.dsDeleteFault = none) :
    (cs.backendTypes &&& RequestBackend > 0 →
       assocGet (cs.delete w s).world.request (cs.sessionKey s) = none) ∧
    (cs.backendTypes &&& MemcacheBackend > 0 →
       assocGet (cs.delete w s).world.memcache (cs.sessionKey s) = none) ∧
    (cs.backendTypes &&& DatastoreBackend > 0 →
       assocGet (cs.delete w s).world.datastore (cs.sessionKey s) = none) := by
  by_cases hr : cs.backendTypes &&& RequestBackend > 0 <;>
  by_cases hmc : cs.backendTypes &&& MemcacheBackend > 0 <;>
  by_cases hds : cs.backendTypes &&& DatastoreBackend > 0 <;>
  simp [CascadeStore.delete, CascadeStore.deleteDatastore, hm, hd, hr, hmc, hds,
    assocGet_assocDelete_self] <;>
  split <;>
  simp_all [assocGet_assocDelete_self, Option.isSome_iff_exists,
    Option.eq_none_iff_forall_not_mem]

-- Evaluations of the bitmask tests for the masks 2, 4 and 6 used below.
theorem bitTests :
    ((2 : Nat) &&& 1 = 0) ∧ ((2 : Nat) &&& 2 = 2) ∧ ((2 : Nat) &&& 4 = 0) ∧
    ((4 : Nat) &&& 1 = 0) ∧ ((4 : Nat) &&& 2 = 0) ∧ ((4 : Nat) &&& 4 = 4) ∧
    ((6 : Nat) &&& 1 = 0) ∧ ((6 : Nat) &&& 2 = 2) ∧ ((6 : Nat) &&& 4 = 4) := by
  decide

-- Shape of a load result, established leg by leg: a load that does not
-- succeed returns its session argument unchanged (in particular with its
-- value mapping intact), and a load that succeeds returns a nil error
-- (the success branch of `loadFinish` is the only one setting `success`,
-- and it returns `nil`).

theorem loadFinish_shape (cs : CascadeStore) (w : World) (s : Session)
    (v : Option (List Nat)) (ev : Option GoError) :
    ((cs.loadFinish w s v ev).success = false → (cs.loadFinish w s v ev).session = s) ∧
    ((cs.loadFinish w s v ev).success = true → (cs.loadFinish w s v ev).err = none) := by
  unfold CascadeStore.loadFinish
  repeat' split
  all_goals simp

theorem loadDatastore_shape (cs : CascadeStore) (w : World) (s : Session)
    (key : String) (v : Option (List Nat)) (ev : Option GoError) :
    ((cs.loadDatastore w s key v ev).success = false →
      (cs.loadDatastore w s key v ev).session = s) ∧
    ((cs.loadDatastore w s key v ev).success = true →
      (cs.loadDatastore w s key v ev).err = none) := by
  unfold CascadeStore.loadDatastore
  repeat' split
  all_goals first
    | exact loadFinish_shape ..
    | simp

theorem loadMemcache_shape (cs : CascadeStore) (w : World) (s : Session)
    (key : String) (v : Option (List Nat)) (ev : Option GoError) :
    ((cs.loadMemcache w s key v ev).success = false →
      (cs.loadMemcache w s key v ev).session = s) ∧
    ((cs.loadMemcache w s key v ev).success = true →
      (cs.loadMemcache w s key v ev).err = none) := by
  unfold CascadeStore.loadMemcache
  repeat' split
  all_goals first
    | exact loadDatastore_shape ..
    | simp

theorem load_shape (cs : CascadeStore) (w : World) (s : Session) :
    ((cs.load w s).success = false → (cs.load w s).session = s) ∧
    ((cs.load w s).success = true → (cs.load w s).err = none) := by
  unfold CascadeStore.load
  split
  · rcases hq : assocGet w.request (cs.sessionKey s) with _ | (it | it) <;>
    simp only [hq] <;>
    first
      | exact loadMemcache_shape ..
      | simp
      | (split <;> exact loadMemcache_shape ..)
  · exact loadMemcache_shape ..

/-- Claim C1, counterexample.  The round-trip `load (save S).id` does *not*
report found for every subset of enabled tiers: (a) with the Ephemeral-only
subset, `load` hits the `itemRaw.(requestItem)` type assertion on the stored
`*requestItem` pointer and aborts with `found = false`; (b) with the empty
subset nothing is ever persisted; (c) with Memcache only and a negative
session max-age the record is stored already expired, so `load` misses —
all three sessions are well within the max length. -/
theorem claim_C1_counterexample :
    ((exStore 1).load ((exStore 1).save exWorld exSession).world exSession).success = false ∧
    ((exStore 0).load ((exStore 0).save exWorld exSession).world exSession).success = false ∧
    ((exStore 2).load ((exStore 2).save exWorld
        ⟨"abc", [1, 2], ⟨"/", "", -5, false, false⟩, false⟩).world
        ⟨"abc", [1, 2], ⟨"/", "", -5, false, false⟩, false⟩).success = false := by
  decide

/-- Claim C1, amended.  For every session within the size limit and with a
positive effective TTL, over a fault-free backend state, saving and then
loading the same session ID reports found and restores the original value
mapping — for every *nonempty subset of the Volatile and Durable tiers*
(bitmask 2, 4 or 6); subsets containing the Ephemeral tier fail through the
request-tier type assertion, and the empty subset never persists. -/
theorem claim_C1_roundtrip (cs : CascadeStore) (w : World) (s : Session)
    (hbt : cs.backendTypes = 2 ∨ cs.backendTypes = 4 ∨ cs.backendTypes = 6)
    (hsize : ¬(cs.maxLength ≠ 0 ∧ (GobSerializer.Serialize s.values).length > cs.maxLength))
    (hage : 0 < cs.effectiveAge s)
    (hms : w.memSetFault = none) (hdp : w.dsPutFault = none)
    (hmg : w.memGetFault = none) (hdg : w.dsGetFault = none) :
    (cs.load (cs.save w s).world s).success = true ∧
    (cs.load (cs.save w s).world s).session.values = s.values ∧
    (cs.load (cs.save w s).world s).err = none := by
  have hne : cs.effectiveAge s ≠ 0 := by omega
  have hlt : w.now < w.now + cs.effectiveAge s := by omega
  rw [save_ok cs w s hsize hms hdp]
  rcases hbt with h | h | h <;>
  simp [CascadeStore.load, CascadeStore.loadMemcache, CascadeStore.loadDatastore,
    CascadeStore.loadFinish, memGet, h, hmg, hdg, assocGet_assocSet_self,
    deserialize_serialize, hne, hlt, RequestBackend, MemcacheBackend, DatastoreBackend,
    bitTests.1, bitTests.2.1, bitTests.2.2.1, bitTests.2.2.2.1, bitTests.2.2.2.2.1,
    bitTests.2.2.2.2.2.1, bitTests.2.2.2.2.2.2.1, bitTests.2.2.2.2.2.2.2.1,
    bitTests.2.2.2.2.2.2.2.2]

/-- Claim C1, witness: the amended round-trip at the Memcache-only store
with the concrete session. -/
theorem claim_C1_roundtrip_witness :
    ((exStore 2).backendTypes = 2 ∨ (exStore 2).backendTypes = 4 ∨
      (exStore 2).backendTypes = 6) ∧
    ¬((exStore 2).maxLength ≠ 0 ∧
      (GobSerializer.Serialize exSession.values).length > (exStore 2).maxLength) ∧
    0 < (exStore 2).effectiveAge exSession ∧
    (((exStore 2).load ((exStore 2).save exWorld exSession).world exSession).success = true ∧
     ((exStore 2).load ((exStore 2).save exWorld exSession).world
         exSession).session.values = exSession.values ∧
     ((exStore 2).load ((exStore 2).save exWorld exSession).world exSession).err = none) :=
  ⟨Or.inl rfl, by decide, by decide,
   claim_C1_roundtrip (exStore 2) exWorld exSession (Or.inl rfl) (by decide) (by decide)
     rfl rfl rfl rfl⟩

/-- Claim C2, counterexample.  Saving a session whose serialized size (6)
exceeds the configured max length (4) writes no tier — the backend state is
unchanged — but returns a `nil` error, *not* `ValueTooBigError`: the panic
carrying `ValueTooBigError` is recovered by a block whose `err := r.(error)`
shadows the named return value, which still holds `nil`. -/
theorem claim_C2_counterexample :
    ((⟨6, 4, "session.", exOptions, 1200⟩ : CascadeStore).save exWorld
        ⟨"abc", [1, 2, 3, 4, 5], exOptions, false⟩) = ⟨exWorld, none⟩ := by
  decide

/-- Claim C2, amended.  For every session whose serialized size exceeds the
(non-zero) max length, the save cascade writes no tier — the backend state is
returned unchanged — but the returned error is `nil` rather than
`ValueTooBigError`, which is only logged. -/
theorem claim_C2_amended (cs : CascadeStore) (w : World) (s : Session)
    (hml : cs.maxLength ≠ 0)
    (hbig : (GobSerializer.Serialize s.values).length > cs.maxLength) :
    cs.save w s = ⟨w, none⟩ := by
  simp [CascadeStore.save, hml, hbig]

/-- Claim C2, witness: the amended statement at a store with max length 4 and
a session of serialized size 6. -/
theorem claim_C2_amended_witness :
    (⟨6, 4, "session.", exOptions, 1200⟩ : CascadeStore).maxLength ≠ 0 ∧
    (GobSerializer.Serialize ([1, 2, 3, 4, 5] : List Nat)).length >
      (⟨6, 4, "session.", exOptions, 1200⟩ : CascadeStore).maxLength ∧
    (⟨6, 4, "session.", exOptions, 1200⟩ : CascadeStore).save exWorld
        ⟨"xyz", [1, 2, 3, 4, 5], exOptions, false⟩ = ⟨exWorld, none⟩ :=
  ⟨by decide, by decide,
   claim_C2_amended (⟨6, 4, "session.", exOptions, 1200⟩ : CascadeStore) exWorld
     ⟨"xyz", [1, 2, 3, 4, 5], exOptions, false⟩ (by decide) (by decide)⟩

/-- Claim C3, counterexample.  With Memcache and Datastore enabled and the
memcache write failing with `backend 7` (not a miss), the save cascade does
abort — the datastore is never written — but it returns a `nil` error rather
than surfacing `backend 7`: the panic is recovered by a block whose
`err := r.(error)` shadows the named return value. -/
theorem claim_C3_counterexample :
    ((exStore 6).save exSetFaultWorld exSession).err = none ∧
    ((exStore 6).save exSetFaultWorld exSession).world.datastore = [] := by
  decide

/-- Claim C3, amended.  A backend failure other than a miss/not-found aborts
the remainder of the cascade, but the error is surfaced to the caller only in
one case — a load whose memcache get fails, because `item, err =
memcache.Get` assigns the *named* return before panicking.  For every other
failing leg, Memcache- or Datastore-side: a failing memcache write during
save leaves the datastore untouched and save returns `nil`; a failing
datastore put makes save return `nil` with the datastore unwritten; a failing
memcache delete skips the datastore leg and delete returns `nil`; a failing
datastore delete is only logged and delete returns `nil` with the record left
in place; and a load aborted by a failing datastore get returns the stale
value of the named error variable — cache-miss if the Memcache tier was
consulted, else `nil` — never the datastore error itself. -/
theorem claim_C3_amended :
    (∀ (cs : CascadeStore) (w : World) (s : Session) (e : GoError),
      w.memSetFault = some e →
      cs.backendTypes &&& MemcacheBackend > 0 →
      (cs.save w s).world.datastore = w.datastore ∧ (cs.save w s).err = none) ∧
    (∀ (cs : CascadeStore) (w : World) (s : Session) (e : GoError),
      w.dsPutFault = some e → w.memSetFault = none →
      cs.backendTypes &&& DatastoreBackend > 0 →
      (cs.save w s).world.datastore = w.datastore ∧ (cs.save w s).err = none) ∧
    (∀ (cs : CascadeStore) (w : World) (s : Session) (e : GoError),
      w.memGetFault = some e → e ≠ GoError.cacheMiss →
      cs.backendTypes &&& MemcacheBackend > 0 →
      (cs.backendTypes &&& RequestBackend > 0 →
        assocGet w.request (cs.sessionKey s) = none) →
      cs.load w s = ⟨w, s, false, some e⟩) ∧
    (∀ (cs : CascadeStore) (w : World) (s : Session) (e : GoError),
      w.dsGetFault = some e → e ≠ GoError.noSuchEntity →
      cs.backendTypes &&& DatastoreBackend > 0 →
      (cs.backendTypes &&& RequestBackend > 0 →
        assocGet w.request (cs.sessionKey s) = none) →
      (cs.backendTypes &&& MemcacheBackend > 0 →
        w.memGetFault = none ∧ memGet w (cs.sessionKey s) = none) →
      cs.load w s =
        ⟨w, s, false,
         if cs.backendTypes &&& MemcacheBackend > 0 then some GoError.cacheMiss
         else none⟩ ∧
      (e ≠ GoError.cacheMiss → (cs.load w s).err ≠ some e)) ∧
    (∀ (cs : CascadeStore) (w : World) (s : Session) (e : GoError),
      w.memDeleteFault = some e → e ≠ GoError.cacheMiss →
      cs.backendTypes &&& MemcacheBackend > 0 →
      (cs.delete w s).world.datastore = w.datastore ∧ (cs.delete w s).err = none) ∧
    (∀ (cs : CascadeStore) (w : World) (s : Session) (e : GoError),
      w.dsDeleteFault = some e → w.memDeleteFault = none →
      cs.backendTypes &&& DatastoreBackend > 0 →
      (cs.delete w s).world.datastore = w.datastore ∧ (cs.delete w s).err = none) := by
  refine ⟨fun cs w s e hf hmem => ?_, fun cs w s e hdf hms hds => ?_,
    fun cs w s e hf hne hmem hreq => ?_, fun cs w s e hdf hne hds hreq hmem => ?_,
    fun cs w s e hf hne hmem => ?_, fun cs w s e hdf hmd hds => ?_⟩
  · by_cases hsize : cs.maxLength ≠ 0 ∧ (GobSerializer.Serialize s.values).length > cs.maxLength <;>
    by_cases hr : cs.backendTypes &&& RequestBackend > 0 <;>
    simp [CascadeStore.save, hsize, hmem, hf, hr]
  · by_cases hsize : cs.maxLength ≠ 0 ∧ (GobSerializer.Serialize s.values).length > cs.maxLength <;>
    by_cases hr : cs.backendTypes &&& RequestBackend > 0 <;>
    by_cases hmc : cs.backendTypes &&& MemcacheBackend > 0 <;>
    simp [CascadeStore.save, CascadeStore.saveDatastore, hsize, hr, hmc, hds, hms, hdf]
  · by_cases hr : cs.backendTypes &&& RequestBackend > 0 <;>
    simp_all [CascadeStore.load, CascadeStore.loadMemcache, hmem, hf, hne, hr]
  · have heq : cs.load w s =
        ⟨w, s, false,
         if cs.backendTypes &&& MemcacheBackend > 0 then some GoError.cacheMiss
         else none⟩ := by
      by_cases hr : cs.backendTypes &&& RequestBackend > 0 <;>
      by_cases hmc : cs.backendTypes &&& MemcacheBackend > 0 <;>
      simp_all [CascadeStore.load, CascadeStore.loadMemcache, CascadeStore.loadDatastore,
        CascadeStore.loadFinish]
    refine ⟨heq, fun hcm => ?_⟩
    rw [heq]
    by_cases hmc : cs.backendTypes &&& MemcacheBackend > 0 <;> simp_all <;>
    exact fun h => hcm h.symm
  · by_cases hr : cs.backendTypes &&& RequestBackend > 0 <;>
    simp [CascadeStore.delete, hmem, hf, hr] <;>
    (cases e <;> simp_all)
  · by_cases hr : cs.backendTypes &&& RequestBackend > 0 <;>
    by_cases hmc : cs.backendTypes &&& MemcacheBackend > 0 <;>
    simp [CascadeStore.delete, CascadeStore.deleteDatastore, hr, hmc, hds, hmd, hdf] <;>
    split <;> simp_all

/-- Claim C3, witness: the six amended statements at the Memcache+Datastore
store with concrete fault-injected backend states for each failing leg. -/
theorem claim_C3_amended_witness :
    (exSetFaultWorld.memSetFault = some (GoError.backend 7) ∧
     ((exStore 6).save exSetFaultWorld exSession).world.datastore =
       exSetFaultWorld.datastore ∧
     ((exStore 6).save exSetFaultWorld exSession).err = none) ∧
    (exDsPutFaultWorld.dsPutFault = some (GoError.backend 13) ∧
     ((exStore 6).save exDsPutFaultWorld exSession).world.datastore =
       exDsPutFaultWorld.datastore ∧
     ((exStore 6).save exDsPutFaultWorld exSession).err = none) ∧
    (exGetFaultWorld.memGetFault = some (GoError.backend 9) ∧
     (exStore 6).load exGetFaultWorld exSession =
       ⟨exGetFaultWorld, exSession, false, some (GoError.backend 9)⟩) ∧
    (exDsGetFaultWorld.dsGetFault = some (GoError.backend 15) ∧
     (exStore 6).load exDsGetFaultWorld exSession =
       ⟨exDsGetFaultWorld, exSession, false,
        if (exStore 6).backendTypes &&& MemcacheBackend > 0 then some GoError.cacheMiss
        else none⟩ ∧
     ((exStore 6).load exDsGetFaultWorld exSession).err ≠ some (GoError.backend 15)) ∧
    (exDelFaultWorld.memDeleteFault = some (GoError.backend 11) ∧
     ((exStore 6).delete exDelFaultWorld exSession).world.datastore =
       exDelFaultWorld.datastore ∧
     ((exStore 6).delete exDelFaultWorld exSession).err = none) ∧
    (exDsDelFaultWorld.dsDeleteFault = some (GoError.backend 17) ∧
     ((exStore 6).delete exDsDelFaultWorld exSession).world.datastore =
       exDsDelFaultWorld.datastore ∧
     ((exStore 6).delete exDsDelFaultWorld exSession).err = none) :=
  ⟨⟨rfl, claim_C3_amended.1 (exStore 6) exSetFaultWorld exSession (GoError.backend 7)
      rfl (by decide)⟩,
   ⟨rfl, claim_C3_amended.2.1 (exStore 6) exDsPutFaultWorld exSession (GoError.backend 13)
      rfl rfl (by decide)⟩,
   ⟨rfl, claim_C3_amended.2.2.1 (exStore 6) exGetFaultWorld exSession (GoError.backend 9)
      rfl (by decide) (by decide) (fun h => absurd h (by decide))⟩,
   ⟨rfl, (claim_C3_amended.2.2.2.1 (exStore 6) exDsGetFaultWorld exSession
        (GoError.backend 15) rfl (by decide) (by decide)
        (fun h => absurd h (by decide)) (fun _ => ⟨rfl, by decide⟩)).1,
    (claim_C3_amended.2.2.2.1 (exStore 6) exDsGetFaultWorld exSession
        (GoError.backend 15) rfl (by decide) (by decide)
        (fun h => absurd h (by decide)) (fun _ => ⟨rfl, by decide⟩)).2 (by decide)⟩,
   ⟨rfl, claim_C3_amended.2.2.2.2.1 (exStore 6) exDelFaultWorld exSession
      (GoError.backend 11) rfl (by decide) (by decide)⟩,
   ⟨rfl, claim_C3_amended.2.2.2.2.2 (exStore 6) exDsDelFaultWorld exSession
      (GoError.backend 17) rfl rfl (by decide)⟩⟩

/-- Claim C4, counterexample.  For a request carrying a cookie whose
authenticated decode fails, `New` returns the fresh, new, empty session
*together with the decode error* — a non-nil error — contradicting the claim
that `New` never returns a non-nil error for a corrupt cookie. -/
theorem claim_C4_counterexample :
    ((exStore 6).New exWorld (CookieState.invalid (GoError.backend 3)) "mysession").err =
      some (GoError.backend 3) ∧
    ((exStore 6).New exWorld
        (CookieState.invalid (GoError.backend 3)) "mysession").session.isNew = true ∧
    ((exStore 6).New exWorld
        (CookieState.invalid (GoError.backend 3)) "mysession").session.values = [] := by
  decide

/-- Claim C4, amended.  `New` always yields a session that is new and empty
unless a load succeeds with a hit; with no cookie it returns a nil error, but
a *decode* failure's error is returned alongside the fresh session, while a
*load* failure is swallowed (the inner `ok, err := cs.load(...)` shadows the
outer error) and `New` returns nil; the session is not-new exactly when the
load returned a nil error and reported a hit, and whenever it stays new its
value mapping is empty. -/
theorem claim_C4_amended :
    (∀ (cs : CascadeStore) (w : World) (name : String),
      cs.New w CookieState.absent name =
        ⟨w, ⟨"", [], cs.Options, true⟩, none⟩) ∧
    (∀ (cs : CascadeStore) (w : World) (name : String) (e : GoError),
      cs.New w (CookieState.invalid e) name =
        ⟨w, ⟨"", [], cs.Options, true⟩, some e⟩) ∧
    (∀ (cs : CascadeStore) (w : World) (name id : String),
      (cs.New w (CookieState.valid id) name).err = none ∧
      ((cs.New w (CookieState.valid id) name).session.isNew = false ↔
        ((cs.load w ⟨id, [], cs.Options, true⟩).err = none ∧
         (cs.load w ⟨id, [], cs.Options, true⟩).success = true)) ∧
      ((cs.New w (CookieState.valid id) name).session.isNew = true →
        (cs.New w (CookieState.valid id) name).session.values = [])) := by
  refine ⟨fun cs w name => rfl, fun cs w name e => rfl, fun cs w name id => ?_⟩
  refine ⟨rfl, ?_, ?_⟩
  · simp [CascadeStore.New]
  · intro hnew
    have hs := load_shape cs w ⟨id, [], cs.Options, true⟩
    by_cases hsuc : (cs.load w ⟨id, [], cs.Options, true⟩).success = true
    · have herr := hs.2 hsuc
      simp [CascadeStore.New, herr, hsuc] at hnew
    · have hfalse : (cs.load w ⟨id, [], cs.Options, true⟩).success = false :=
        Bool.eq_false_iff.mpr hsuc
      have hsess := hs.1 hfalse
      simp [CascadeStore.New, hsess]

/-- Claim C4, witness: a valid cookie for ID `"abc"` whose load fails (the
memcache get faults), so the session stays new with an empty value mapping
while `New` returns a nil error. -/
theorem claim_C4_amended_witness :
    ((exStore 6).New exGetFaultWorld (CookieState.valid "abc") "mysession").err = none ∧
    ((exStore 6).New exGetFaultWorld
        (CookieState.valid "abc") "mysession").session.isNew = true ∧
    ((exStore 6).New exGetFaultWorld
        (CookieState.valid "abc") "mysession").session.values = [] :=
  ⟨(claim_C4_amended.2.2 (exStore 6) exGetFaultWorld "mysession" "abc").1,
   by decide,
   (claim_C4_amended.2.2 (exStore 6) exGetFaultWorld "mysession" "abc").2.2 (by decide)⟩

/-- Claim C5 (confirmed).  With Memcache and Datastore enabled, a failing
memcache write leaves the datastore untouched on that save call, and an
earlier Ephemeral write (when the Request tier is enabled and the size check
passed) is present in the final state — not rolled back. -/
theorem claim_C5_volatile_failure (cs : CascadeStore) (w : World) (s : Session)
    (e : GoError)
    (hmem : cs.backendTypes &&& MemcacheBackend > 0)
    (hds : cs.backendTypes &&& DatastoreBackend > 0)
    (hf : w.memSetFault = some e) :
    (cs.save w s).world.datastore = w.datastore ∧
    (¬(cs.maxLength ≠ 0 ∧ (GobSerializer.Serialize s.values).length > cs.maxLength) →
      cs.backendTypes &&& RequestBackend > 0 →
      (cs.save w s).world.request =
        assocSet w.request (cs.sessionKey s)
          (gcVal.ptrItem ⟨GobSerializer.Serialize s.values, w.now + cs.effectiveAge s⟩)) := by
  by_cases hsize : cs.maxLength ≠ 0 ∧ (GobSerializer.Serialize s.values).length > cs.maxLength <;>
  by_cases hr : cs.backendTypes &&& RequestBackend > 0 <;>
  simp [CascadeStore.save, hsize, hmem, hf, hr]

/-- Claim C5, witness: all three tiers enabled, memcache write failing. -/
theorem claim_C5_volatile_failure_witness :
    (exStore 7).backendTypes &&& MemcacheBackend > 0 ∧
    (exStore 7).backendTypes &&& DatastoreBackend > 0 ∧
    exSetFaultWorld.memSetFault = some (GoError.backend 7) ∧
    ((exStore 7).save exSetFaultWorld exSession).world.datastore =
      exSetFaultWorld.datastore ∧
    ((exStore 7).save exSetFaultWorld exSession).world.request =
      assocSet exSetFaultWorld.request ((exStore 7).sessionKey exSession)
        (gcVal.ptrItem ⟨GobSerializer.Serialize exSession.values,
          exSetFaultWorld.now + (exStore 7).effectiveAge exSession⟩) :=
  ⟨by decide, by decide, rfl,
   (claim_C5_volatile_failure (exStore 7) exSetFaultWorld exSession (GoError.backend 7)
      (by decide) (by decide) rfl).1,
   (claim_C5_volatile_failure (exStore 7) exSetFaultWorld exSession (GoError.backend 7)
      (by decide) (by decide) rfl).2 (by decide) (by decide)⟩

/-- Claim C6 (confirmed).  When a load reaches the Durable tier (the earlier
tiers miss cleanly) and finds a record whose `ExpiresAt` is not after the
current time, the load reports found = false with a nil error, the full
delete cascade runs, and — with the delete backends not faulted — the key is
absent from every enabled tier afterwards. -/
theorem claim_C6_expired_durable (cs : CascadeStore) (w : World) (s : Session)
    (sk : sessionKind)
    (hds : cs.backendTypes &&& DatastoreBackend > 0)
    (hreq : cs.backendTypes &&& RequestBackend > 0 →
      assocGet w.request (cs.sessionKey s) = none)
    (hmem : cs.backendTypes &&& MemcacheBackend > 0 →
      w.memGetFault = none ∧ memGet w (cs.sessionKey s) = none)
    (hdg : w.dsGetFault = none)
    (hrec : assocGet w.datastore (cs.sessionKey s) = some sk)
    (hexp : ¬ w.now < sk.ExpiresAt)
    (hmd : w.memDeleteFault = none) (hdd : w.dsDeleteFault = none) :
    (cs.load w s).success = false ∧
    (cs.load w s).err = none ∧
    (cs.load w s).world = (cs.delete w s).world ∧
    (cs.backendTypes &&& RequestBackend > 0 →
      assocGet (cs.load w s).world.request (cs.sessionKey s) = none) ∧
    (cs.backendTypes &&& MemcacheBackend > 0 →
      assocGet (cs.load w s).world.memcache (cs.sessionKey s) = none) ∧
    assocGet (cs.load w s).world.datastore (cs.sessionKey s) = none := by
  have hload : cs.load w s = ⟨(cs.delete w s).world, s, false, none⟩ := by
    have hde := delete_err cs w s
    by_cases hr : cs.backendTypes &&& RequestBackend > 0 <;>
    by_cases hmc : cs.backendTypes &&& MemcacheBackend > 0 <;>
    · rcases hdel : cs.delete w s with ⟨w', e⟩
      rw [hdel] at hde; simp only at hde; subst hde
      simp_all [CascadeStore.load, CascadeStore.loadMemcache, CascadeStore.loadDatastore,
        CascadeStore.loadFinish, hdel]
  have hdw := delete_world cs w s hmd hdd
  rw [hload]
  refine ⟨rfl, rfl, rfl, fun h => hdw.1 h, fun h => hdw.2.1 h, hdw.2.2 hds⟩

/-- Claim C6, witness: all three tiers enabled, datastore holding an expired
record for the session's key. -/
theorem claim_C6_expired_durable_witness :
    (exStore 7).backendTypes &&& DatastoreBackend > 0 ∧
    assocGet exExpiredWorld.datastore ((exStore 7).sessionKey exSession) =
      some ⟨[2, 1, 2], -1⟩ ∧
    ¬ exExpiredWorld.now < (-1 : Int) ∧
    (((exStore 7).load exExpiredWorld exSession).success = false ∧
     ((exStore 7).load exExpiredWorld exSession).err = none ∧
     ((exStore 7).load exExpiredWorld exSession).world =
       ((exStore 7).delete exExpiredWorld exSession).world ∧
     ((exStore 7).backendTypes &&& RequestBackend > 0 →
       assocGet ((exStore 7).load exExpiredWorld exSession).world.request
         ((exStore 7).sessionKey exSession) = none) ∧
     ((exStore 7).backendTypes &&& MemcacheBackend > 0 →
       assocGet ((exStore 7).load exExpiredWorld exSession).world.memcache
         ((exStore 7).sessionKey exSession) = none) ∧
     assocGet ((exStore 7).load exExpiredWorld exSession).world.datastore
       ((exStore 7).sessionKey exSession) = none) :=
  ⟨by decide, by decide, by decide,
   claim_C6_expired_durable (exStore 7) exExpiredWorld exSession ⟨[2, 1, 2], -1⟩
     (by decide) (fun _ => by decide) (fun _ => ⟨rfl, by decide⟩) rfl (by decide)
     (by decide) rfl rfl⟩

/-- Claim C7 (confirmed).  On a fault-free, size-respecting save, the
effective TTL is the session's max-age when non-zero, else the store's
default, and every enabled tier receives the record with absolute expiration
`now + TTL` (the memcache tier is handed the TTL itself; its native expiry,
recorded at `Set` time, is the same `now + TTL`, with a zero TTL meaning no
expiration). -/
theorem claim_C7_ttl (cs : CascadeStore) (w : World) (s : Session)
    (hsize : ¬(cs.maxLength ≠ 0 ∧ (GobSerializer.Serialize s.values).length > cs.maxLength))
    (hms : w.memSetFault = none) (hdp : w.dsPutFault = none) :
    cs.effectiveAge s =
      (if s.options.maxAge = 0 then cs.DefaultMaxAge else s.options.maxAge) ∧
    (cs.backendTypes &&& RequestBackend > 0 →
      assocGet (cs.save w s).world.request (cs.sessionKey s) =
        some (gcVal.ptrItem ⟨GobSerializer.Serialize s.values, w.now + cs.effectiveAge s⟩)) ∧
    (cs.backendTypes &&& MemcacheBackend > 0 →
      assocGet (cs.save w s).world.memcache (cs.sessionKey s) =
        some ⟨GobSerializer.Serialize s.values,
              if cs.effectiveAge s = 0 then none else some (w.now + cs.effectiveAge s)⟩) ∧
    (cs.backendTypes &&& DatastoreBackend > 0 →
      assocGet (cs.save w s).world.datastore (cs.sessionKey s) =
        some ⟨GobSerializer.Serialize s.values, w.now + cs.effectiveAge s⟩) := by
  rw [save_ok cs w s hsize hms hdp]
  refine ⟨rfl, fun h => ?_, fun h => ?_, fun h => ?_⟩ <;>
  simp [h, assocGet_assocSet_self]

/-- Claim C7, witness: all three tiers enabled, fault-free save of the
concrete session. -/
theorem claim_C7_ttl_witness :
    ¬((exStore 7).maxLength ≠ 0 ∧
      (GobSerializer.Serialize exSession.values).length > (exStore 7).maxLength) ∧
    ((exStore 7).effectiveAge exSession =
       (if exSession.options.maxAge = 0 then (exStore 7).DefaultMaxAge
        else exSession.options.maxAge) ∧
     assocGet ((exStore 7).save exWorld exSession).world.request
         ((exStore 7).sessionKey exSession) =
       some (gcVal.ptrItem ⟨GobSerializer.Serialize exSession.values,
         exWorld.now + (exStore 7).effectiveAge exSession⟩) ∧
     assocGet ((exStore 7).save exWorld exSession).world.memcache
         ((exStore 7).sessionKey exSession) =
       some ⟨GobSerializer.Serialize exSession.values,
         if (exStore 7).effectiveAge exSession = 0 then none
         else some (exWorld.now + (exStore 7).effectiveAge exSession)⟩ ∧
     assocGet ((exStore 7).save exWorld exSession).world.datastore
         ((exStore 7).sessionKey exSession) =
       some ⟨GobSerializer.Serialize exSession.values,
         exWorld.now + (exStore 7).effectiveAge exSession⟩) :=
  ⟨by decide,
   (claim_C7_ttl (exStore 7) exWorld exSession (by decide) rfl rfl).1,
   (claim_C7_ttl (exStore 7) exWorld exSession (by decide) rfl rfl).2.1 (by decide),
   (claim_C7_ttl (exStore 7) exWorld exSession (by decide) rfl rfl).2.2.1 (by decide),
   (claim_C7_ttl (exStore 7) exWorld exSession (by decide) rfl rfl).2.2.2 (by decide)⟩

/-- Claim C8 (code bug), evaluated at the failing input.  The Request tier is
enabled and holds a valid, unexpired record for the key (`now = 0 <
ExpiresAt = 100`, bytes exactly as `save` stores them), so per the claim the
load should be a hit; instead the value-type assertion `itemRaw.(requestItem)`
on the stored `*requestItem` pointer panics, and the recovered load returns
found = false with a nil error, leaving the record in place.  The intended
hit/expire branch in the source is unreachable for records written by
`save`. -/
theorem claim_C8_request_assertion :
    (exStore 1).load
        ⟨[("session.abc", gcVal.ptrItem ⟨[2, 1, 2], 100⟩)], [], [], 0,
         none, none, none, none, none, none⟩ exSession =
      ⟨⟨[("session.abc", gcVal.ptrItem ⟨[2, 1, 2], 100⟩)], [], [], 0,
        none, none, none, none, none, none⟩, exSession, false, none⟩ := by
  decide

/-- Claim C9 (confirmed).  With a zero backend bitmask, every save returns a
nil error and leaves the backend state untouched, and every load of any
session reports found = false with a nil error — the store silently never
persists. -/
theorem claim_C9_zero_tiers (cs : CascadeStore) (h : cs.backendTypes = 0)
    (w : World) (s : Session) (w' : World) (s' : Session) :
    cs.save w s = ⟨w, none⟩ ∧ cs.load w' s' = ⟨w', s', false, none⟩ := by
  constructor
  · by_cases hsize : cs.maxLength ≠ 0 ∧ (GobSerializer.Serialize s.values).length > cs.maxLength <;>
    simp [CascadeStore.save, CascadeStore.saveDatastore, h, hsize]
  · simp [CascadeStore.load, CascadeStore.loadMemcache, CascadeStore.loadDatastore,
      CascadeStore.loadFinish, h]

/-- Claim C9, witness: the zero-bitmask store on the concrete session. -/
theorem claim_C9_zero_tiers_witness :
    (exStore 0).backendTypes = 0 ∧
    (exStore 0).save exWorld exSession = ⟨exWorld, none⟩ ∧
    (exStore 0).load exWorld exSession = ⟨exWorld, exSession, false, none⟩ :=
  ⟨rfl,
   (claim_C9_zero_tiers (exStore 0) rfl exWorld exSession exWorld exSession).1,
   (claim_C9_zero_tiers (exStore 0) rfl exWorld exSession exWorld exSession).2⟩

/-- Claim C10 (confirmed).  The delete cascade returns a nil error on every
input — backend delete failures are logged, never returned — so the facade
`Save`'s logout branch (negative max-age) always proceeds to set the
immediate-expiry cookie and returns nil. -/
theorem claim_C10_delete_nil (cs : CascadeStore) (w : World) (s : Session)
    (freshId : String) :
    (cs.delete w s).err = none ∧
    (s.options.maxAge < 0 →
      cs.Save w s freshId =
        ⟨(cs.delete w s).world, CookieAction.expireCookie, none⟩) := by
  refine ⟨delete_err cs w s, fun hneg => ?_⟩
  have h := delete_err cs w s
  unfold CascadeStore.Save
  rw [if_pos hneg]
  rcases hd : cs.delete w s with ⟨w', e⟩
  rw [hd] at h
  simp only at h
  subst h
  simp [hd]

/-- Claim C10, witness: the logout session (max-age −1) on the all-tiers
store. -/
theorem claim_C10_delete_nil_witness :
    exLogoutSession.options.maxAge < 0 ∧
    ((exStore 7).delete exWorld exLogoutSession).err = none ∧
    (exStore 7).Save exWorld exLogoutSession "freshid" =
      ⟨((exStore 7).delete exWorld exLogoutSession).world,
       CookieAction.expireCookie, none⟩ :=
  ⟨by decide,
   (claim_C10_delete_nil (exStore 7) exWorld exLogoutSession "freshid").1,
   (claim_C10_delete_nil (exStore 7) exWorld exLogoutSession "freshid").2 (by decide)⟩
